import Mathlib

/-!
Verification development for the LinkedIn-AI-Post-Generator backend.

The repository contains three drifting variants of the OAuth backend:
  * `src/backend/main.py`      — DB-backed variant (FastAPI + SQLAlchemy), embedded below as `MainPy`;
  * `src/backend/app.py`       — non-DB variant, embedded as `AppPy`;
  * `src/backend/app/main.py`  — "basic profile" variant, embedded as `AppMainPy`.

External HTTP collaborators (LinkedIn token endpoint, userinfo/profile
endpoint, UGC post endpoint, the LLM) are modelled as environments:
structures carrying the status code and JSON body each collaborator would
answer with.  JSON objects with string values are modelled as association
lists `List (String × String)`; Python `dict[k]` (which raises `KeyError`)
is `dictGet`, `dict.get(k)` is `dictGetOpt`.  Each handler returns, besides
its result, the list of outbound network calls it performed, so that
"performs no network calls" is the statement that this list is empty.
-/

/-- A JSON object with scalar string values, as an association list. -/
abbrev JObj := List (String × String)

/-- Python `d[k]`: raises `KeyError` when the key is absent. -/
def dictGet (j : JObj) (k : String) : Except String String :=
  match j.find? (fun p => p.1 == k) with
  | some p => Except.ok p.2
  | none => Except.error k

/-- Python `d.get(k)`: `None` when the key is absent. -/
def dictGetOpt (j : JObj) (k : String) : Option String :=
  (j.find? (fun p => p.1 == k)).map (fun p => p.2)

/-- Python truthiness of an optional string: `None` and `""` are falsy. -/
def pyTruthy : Option String → Bool
  | none => false
  | some s => !(s == "")

/-- An HTTP error response (FastAPI `HTTPException`): status code and detail. -/
structure HttpError where
  status : Nat
  detail : String
deriving DecidableEq, Repr

/-- A stored user row (`models.User`): integer primary key, unique
`linkedin_id`, profile attributes and the current bearer token.  The token is
optional because `token_json.get("access_token")` may be `None`. -/
structure UserRecord where
  id : Nat
  linkedin_id : String
  email : String
  name : String
  access_token : Option String
deriving DecidableEq, Repr

/-- The users table plus the next fresh primary key. -/
structure Store where
  users : List UserRecord
  nextId : Nat
deriving DecidableEq, Repr

/-- The request body sent to the UGC-post endpoint (`post_body` in
`create_linkedin_post`), flattened to its scalar leaves. -/
structure UgcBody where
  author : String
  lifecycleState : String
  shareCommentaryText : String
  shareMediaCategory : String
  memberNetworkVisibility : String
deriving DecidableEq, Repr

/-- One outbound network call made by a handler. -/
inductive NetCall where
  | tokenPost (code : String)
  | profileGet (bearer : String)
  | generate (user_name user_prompt : String)
  | ugcPost (bearer : String) (body : UgcBody)
deriving DecidableEq, Repr

/-- Responses the external provider would give during one callback:
status and JSON of the token POST, then of the profile GET. -/
structure CallbackEnv where
  tokenStatus : Nat
  tokenJson : JObj
  profileStatus : Nat
  profileJson : JObj
deriving DecidableEq, Repr

/-- The full query string of a callback request.  FastAPI passes each handler
only the parameters it declares and silently ignores the rest. -/
structure CallbackQuery where
  code : Option String
  state : Option String
  error : Option String
  error_description : Option String
deriving DecidableEq, Repr

/-- Responses of the two collaborators used by `create_linkedin_post`:
the LLM chain (text, or the message of the exception it raised) and the
UGC-post endpoint. -/
structure PostEnv where
  genResult : Except String String
  postStatus : Nat
  postText : String
  postJson : JObj
deriving Repr

/-- Update the first element satisfying `p` (SQLAlchemy mutates the single
row returned by `.first()`). -/
def updateFirst (p : α → Bool) (f : α → α) : List α → List α
  | [] => []
  | x :: xs => if p x then f x :: xs else x :: updateFirst p f xs

/-- Uppercase hex digit of `n < 16`. -/
def hexDigit (n : Nat) : Char :=
  if n < 10 then Char.ofNat (48 + n) else Char.ofNat (55 + n)

/-- Percent-encode one ASCII character as `%XX`. -/
def percentEncodeChar (c : Char) : String :=
  String.mk ['%', hexDigit (c.toNat / 16), hexDigit (c.toNat % 16)]

/-- Characters `urllib.parse` never quotes: alphanumerics and `_.-~`. -/
def isUrlSafeChar (c : Char) : Bool :=
  c.isAlphanum || c == '_' || c == '.' || c == '-' || c == '~'

/-- `urllib.parse.quote_plus` on ASCII input: space becomes `+`, safe
characters pass through, everything else is percent-encoded. -/
def quote_plus (s : String) : String :=
  String.join (s.toList.map (fun c =>
    if c == ' ' then "+"
    else if isUrlSafeChar c then String.singleton c
    else percentEncodeChar c))

/-- `urllib.parse.quote` on ASCII input (default `safe='/'`). -/
def quote (s : String) : String :=
  String.join (s.toList.map (fun c =>
    if isUrlSafeChar c || c == '/' then String.singleton c
    else percentEncodeChar c))

/-- `urllib.parse.urlencode`: `k=v` pairs joined by `&`, both sides quoted. -/
def urlencode (ps : List (String × String)) : String :=
  String.intercalate "&" (ps.map (fun p => quote_plus p.1 ++ "=" ++ quote_plus p.2))

/-- Does `pat` occur at the head of `l`? -/
def startsWithList [DecidableEq α] : List α → List α → Bool
  | [], _ => true
  | _ :: _, [] => false
  | p :: ps, x :: xs => p == x && startsWithList ps xs

/-- Does `pat` occur as a contiguous sublist of `l`? -/
def containsList [DecidableEq α] (pat : List α) : List α → Bool
  | [] => startsWithList pat []
  | x :: xs => startsWithList pat (x :: xs) || containsList pat xs

/-- Does `pat` occur as a substring of `s`? -/
def strContains (s pat : String) : Bool :=
  containsList pat.toList s.toList

namespace MainPy

/-! Embedding of `src/backend/main.py`. -/

/-- The redirect URI constant of `main.py`. -/
def REDIRECT_URI : String := "http://127.0.0.1:8000/auth/callback"

/-- The scope string of `main.py`'s `login_linkedin`. -/
def scopes : String := "profile email openid w_member_social"

/-- The authorization URL of `login_linkedin` (main.py lines 82-86): a plain
f-string, the interpolated values are NOT percent-encoded. -/
def authUrl (client_id redirect_uri scope state : String) : String :=
  "https://www.linkedin.com/oauth/v2/authorization?response_type=code&client_id="
    ++ client_id ++ "&redirect_uri=" ++ redirect_uri
    ++ "&scope=" ++ scope ++ "&state=" ++ state

/-- `login_linkedin`: the `state` argument stands for the value of
`secrets.token_urlsafe(16)`, which is drawn fresh on every call. -/
def login_linkedin (client_id state : String) : String :=
  authUrl client_id REDIRECT_URI scopes state

/-- Lines 108-118 of `auth_callback`: look up the user by
`profile_data["sub"]`; if found, assign ONLY `access_token` on the row;
otherwise construct a new `models.User` from `profile_data["sub"]`,
`profile_data["email"]`, `profile_data["name"]` and the token (each `[...]`
access may raise `KeyError`, returned as `Except.error key`). -/
def reconcile (access_token : Option String) (profileJson : JObj) (db : Store) :
    Except String (UserRecord × Store) :=
  match dictGet profileJson "sub" with
  | Except.error k => Except.error k
  | Except.ok sub =>
    match db.users.find? (fun u => u.linkedin_id == sub) with
    | some u =>
      let assignToken := fun v : UserRecord => { v with access_token := access_token }
      Except.ok ({ u with access_token := access_token },
        { db with users := updateFirst (fun v => v.linkedin_id == sub) assignToken db.users })
    | none =>
      match dictGet profileJson "email" with
      | Except.error k => Except.error k
      | Except.ok email =>
        match dictGet profileJson "name" with
        | Except.error k => Except.error k
        | Except.ok name =>
          let u : UserRecord :=
            { id := db.nextId, linkedin_id := sub, email := email,
              name := name, access_token := access_token }
          Except.ok (u, { users := db.users ++ [u], nextId := db.nextId + 1 })

/-- The frontend redirect built on success (lines 121-123):
`http://localhost:5173?user_id={id}&name={quote(name)}`. -/
def frontendRedirect (u : UserRecord) : String :=
  "http://localhost:5173?user_id=" ++ toString u.id ++ "&name=" ++ quote u.name

/-- `auth_callback` of `main.py` (lines 89-126).  The handler declares only
`code`; there is no `state` or `error` parameter and no state validation.
Inside the `try` block: POST the code to the token endpoint,
`raise_for_status`, read `access_token` with `.get` (so it may be `None`;
the f-string then renders the bearer header with the text `None`), GET the
userinfo endpoint, `raise_for_status`, then reconcile into the store.  Any
exception is caught by the blanket handler and surfaced as a 500 whose
detail is `"An error occurred: " ++ str(e)`; for a `KeyError` on key `k`,
`str(e)` is `'k'` (quoted), and for `raise_for_status` we abbreviate the
requests message to `"HTTPError <status>"`. -/
def auth_callback (code : Option String) (env : CallbackEnv) (db : Store) :
    Except HttpError String × Store × List NetCall :=
  match code with
  | none => (Except.error ⟨400, "Authorization code not provided"⟩, db, [])
  | some c =>
    if 400 ≤ env.tokenStatus then
      (Except.error ⟨500, "An error occurred: HTTPError " ++ toString env.tokenStatus⟩,
        db, [NetCall.tokenPost c])
    else
      let access_token := dictGetOpt env.tokenJson "access_token"
      let bearer := access_token.getD "None"
      let calls := [NetCall.tokenPost c, NetCall.profileGet bearer]
      if 400 ≤ env.profileStatus then
        (Except.error ⟨500, "An error occurred: HTTPError " ++ toString env.profileStatus⟩,
          db, calls)
      else
        match reconcile access_token env.profileJson db with
        | Except.error k =>
          (Except.error ⟨500, "An error occurred: '" ++ k ++ "'"⟩, db, calls)
        | Except.ok (u, db') =>
          (Except.ok (frontendRedirect u), db', calls)

/-- The handler as seen from HTTP: FastAPI hands `auth_callback` only the
`code` query parameter and ignores `state`, `error`, `error_description`. -/
def handle (q : CallbackQuery) (env : CallbackEnv) (db : Store) :
    Except HttpError String × Store × List NetCall :=
  auth_callback q.code env db

/-- The success body of `create_linkedin_post`. -/
structure PostSuccess where
  status : String
  message : String
  linkedin_response : JObj
deriving DecidableEq, Repr

/-- `create_linkedin_post` (main.py lines 130-190): look up the user by
primary key (404 if absent, 400 if the stored token is falsy), run the LLM
chain over the persona template (500 on any exception), then POST the
generated text to the UGC endpoint with `lifecycleState = "PUBLISHED"` and
`MemberNetworkVisibility = "PUBLIC"`; a non-2xx publish response is passed
through with the provider's status and body text. -/
def create_linkedin_post (user_id : Nat) (prompt : String) (env : PostEnv) (db : Store) :
    Except HttpError PostSuccess × List NetCall :=
  match db.users.find? (fun u => u.id == user_id) with
  | none => (Except.error ⟨404, "User not found"⟩, [])
  | some user =>
    if pyTruthy user.access_token then
      let calls1 := [NetCall.generate user.name prompt]
      match env.genResult with
      | Except.error e =>
        (Except.error ⟨500, "AI content generation failed: " ++ e⟩, calls1)
      | Except.ok generated_text =>
        let tok := user.access_token.getD ""
        let body : UgcBody :=
          { author := "urn:li:person:" ++ user.linkedin_id,
            lifecycleState := "PUBLISHED",
            shareCommentaryText := generated_text,
            shareMediaCategory := "NONE",
            memberNetworkVisibility := "PUBLIC" }
        let calls2 := calls1 ++ [NetCall.ugcPost tok body]
        if 400 ≤ env.postStatus then
          (Except.error ⟨env.postStatus, "Failed to post to LinkedIn: " ++ env.postText⟩,
            calls2)
        else
          (Except.ok { status := "success",
                       message := "Post successfully created and published on LinkedIn.",
                       linkedin_response := env.postJson }, calls2)
    else
      (Except.error ⟨400, "User does not have a valid access token"⟩, [])

end MainPy

namespace AppPy

/-! Embedding of `src/backend/app.py`. -/

/-- The redirect URI constant of `app.py`. -/
def REDIRECT_URI : String := "http://127.0.0.1:8000/auth/callback"

/-- The scope string of `app.py`'s `login_linkedin`. -/
def scopes : String := "profile"

/-- The authorization URL of `login_linkedin` (app.py lines 53-60): the same
plain f-string construction as `main.py`, no percent-encoding. -/
def authUrl (client_id redirect_uri scope state : String) : String :=
  "https://www.linkedin.com/oauth/v2/authorization?response_type=code&client_id="
    ++ client_id ++ "&redirect_uri=" ++ redirect_uri
    ++ "&scope=" ++ scope ++ "&state=" ++ state

/-- `login_linkedin`: the `state` argument stands for the value of
`secrets.token_urlsafe(32)`, drawn fresh per call. -/
def login_linkedin (client_id state : String) : String :=
  authUrl client_id REDIRECT_URI scopes state

/-- The JSON body returned by `auth_callback` on success (app.py lines
144-152): it includes the raw `access_token` and echoes the received
`state` for debugging. -/
structure SuccessBody where
  status : String
  message : String
  access_token : String
  token_type : Option String
  expires_in : Option String
  profile : JObj
  state_received : Option String
deriving DecidableEq, Repr

/-- `auth_callback` of `app.py` (lines 70-163).  Order of checks: provider
`error` first, then missing `code`; the `state` parameter is accepted but —
per the comment in the source — never validated.  The `HTTPException`s
raised inside the `try` block (token status ≠ 200, missing `access_token`,
profile status ≠ 200) are caught by the blanket `except Exception` handler
and re-surfaced as 500 `"Internal server error: ..."`; we abbreviate the
embedded `str(e)` text, which no theorem below depends on. -/
def auth_callback (code state error error_description : Option String)
    (env : CallbackEnv) : Except HttpError SuccessBody × List NetCall :=
  match error with
  | some e =>
    (Except.error ⟨400, "OAuth error: " ++ e ++ ". Description: "
        ++ error_description.getD "No description provided"⟩, [])
  | none =>
    match code with
    | none => (Except.error ⟨400, "Authorization code not provided"⟩, [])
    | some c =>
      if env.tokenStatus == 200 then
        match dictGetOpt env.tokenJson "access_token" with
        | none =>
          (Except.error ⟨500, "Internal server error: no access token in response"⟩,
            [NetCall.tokenPost c])
        | some access_token =>
          let calls := [NetCall.tokenPost c, NetCall.profileGet access_token]
          if env.profileStatus == 200 then
            (Except.ok { status := "success",
                         message := "LinkedIn OAuth successful",
                         access_token := access_token,
                         token_type := dictGetOpt env.tokenJson "token_type",
                         expires_in := dictGetOpt env.tokenJson "expires_in",
                         profile := env.profileJson,
                         state_received := state }, calls)
          else
            (Except.error ⟨500, "Internal server error: failed to get user profile"⟩,
              calls)
      else
        (Except.error ⟨500, "Internal server error: failed to get access token"⟩,
          [NetCall.tokenPost c])

end AppPy

namespace AppMainPy

/-! Embedding of `src/backend/app/main.py`. -/

/-- The redirect URI constant of `app/main.py`. -/
def REDIRECT_URI : String := "http://127.0.0.1:8000/auth/callback"

/-- The scope string of `app/main.py`'s `login_linkedin`: empty. -/
def scopes : String := ""

/-- The state "parameter" of `app/main.py`'s `login_linkedin`: a FIXED
string literal, identical on every call. -/
def state : String := "random_state_string_123"

/-- The authorization URL construction of `login_linkedin` (app/main.py
lines 60-71): `urllib.parse.urlencode` over the ordered parameter dict, so
every value IS percent-encoded. -/
def authUrl (client_id redirect_uri scope st : String) : String :=
  "https://www.linkedin.com/oauth/v2/authorization?" ++
    urlencode [("response_type", "code"), ("client_id", client_id),
               ("redirect_uri", redirect_uri), ("scope", scope), ("state", st)]

/-- `login_linkedin` of `app/main.py`: always uses the fixed literal state. -/
def login_linkedin (client_id : String) : String :=
  authUrl client_id REDIRECT_URI scopes state

/-- The JSON body returned on success (app/main.py lines 170-181); again it
carries the raw `access_token`.  `profile` is the profile JSON when the
profile GET returned 200, and an error-note object otherwise (that branch
does not fail the request). -/
structure SuccessBody where
  status : String
  message : String
  access_token : String
  token_type : String
  expires_in : Option String
  scope : Option String
  profile : JObj
  state_echo : Option String
  api_version : String
deriving DecidableEq, Repr

/-- `auth_callback` of `app/main.py` (lines 75-197).  `error` is checked
first, then falsy `code`; `state` is never validated.  Inner
`HTTPException`s are re-wrapped to 500 by the blanket handler as in
`app.py`.  A failed profile GET does not fail the flow: the response's
`profile` field becomes an error object instead. -/
def auth_callback (code : String) (st error : Option String)
    (env : CallbackEnv) : Except HttpError SuccessBody × List NetCall :=
  match error with
  | some e => (Except.error ⟨400, "LinkedIn OAuth error: " ++ e⟩, [])
  | none =>
    if code == "" then
      (Except.error ⟨400, "No authorization code received from LinkedIn"⟩, [])
    else
      if env.tokenStatus == 200 then
        match dictGetOpt env.tokenJson "access_token" with
        | none =>
          (Except.error ⟨500, "Internal server error: no access token in response"⟩,
            [NetCall.tokenPost code])
        | some access_token =>
          let calls := [NetCall.tokenPost code, NetCall.profileGet access_token]
          let profile_data :=
            if env.profileStatus == 200 then env.profileJson
            else [("error", "Could not fetch profile data"),
                  ("status_code", toString env.profileStatus),
                  ("response", "")]
          (Except.ok { status := "success",
                       message := "LinkedIn OAuth successful using basic profile scope",
                       access_token := access_token,
                       token_type := (dictGetOpt env.tokenJson "token_type").getD "Bearer",
                       expires_in := dictGetOpt env.tokenJson "expires_in",
                       scope := dictGetOpt env.tokenJson "scope",
                       profile := profile_data,
                       state_echo := st,
                       api_version := "basic_profile_only" }, calls)
      else
        (Except.error ⟨500, "Internal server error: failed to get access token"⟩,
          [NetCall.tokenPost code])

end AppMainPy

/-! Helper lemmas. -/

/-- Updating the first element that `find?` returns, with a function that
preserves the predicate, updates exactly that element of the result. -/
theorem find?_updateFirst (p : α → Bool) (f : α → α) (l : List α) (u : α)
    (hf : ∀ a, p a = true → p (f a) = true) :
    l.find? p = some u → (updateFirst p f l).find? p = some (f u) := by
  induction l with
  | nil => intro h; simp at h
  | cons x xs ih =>
    intro h
    by_cases hx : p x = true
    · rw [List.find?_cons_of_pos _ hx] at h
      have hxu := Option.some.inj h
      subst hxu
      rw [updateFirst, if_pos hx, List.find?_cons_of_pos _ (hf x hx)]
    · rw [List.find?_cons_of_neg _ hx] at h
      rw [updateFirst, if_neg hx, List.find?_cons_of_neg _ hx]
      exact ih h

/-! Claim theorems. -/

/-- C1: the spec requires that a callback whose `state` does not match the
issued one fail with `StateMismatchError` and perform no network calls.
The code never validates `state`: with a mismatched state and a willing
provider, the `app.py` handler performs both the token exchange and the
profile fetch and returns success (it even echoes the wrong state back). -/
theorem C1_state_not_validated :
    AppPy.auth_callback (some "authcode-1") (some "wrong-state") none none
        ⟨200, [("access_token", "tok123")], 200, [("sub", "urn1"), ("name", "Jane")]⟩
      = (Except.ok (⟨"success", "LinkedIn OAuth successful", "tok123", none, none,
            [("sub", "urn1"), ("name", "Jane")], some "wrong-state"⟩ : AppPy.SuccessBody),
         [NetCall.tokenPost "authcode-1", NetCall.profileGet "tok123"]) := rfl

/-- C2: the spec forbids ever returning the access token to the caller, but
the `app.py` success response carries it verbatim in its `access_token`
field. -/
theorem C2_token_in_response :
    ∃ body : AppPy.SuccessBody,
      (AppPy.auth_callback (some "authcode-2") (some "st-2") none none
          ⟨200, [("access_token", "tok456"), ("token_type", "Bearer")], 200,
           [("sub", "urn2")]⟩).1 = Except.ok body
      ∧ body.access_token = "tok456" :=
  ⟨⟨"success", "LinkedIn OAuth successful", "tok456", some "Bearer", none,
    [("sub", "urn2")], some "st-2"⟩, rfl, rfl⟩

/-- C3: the spec requires the issued `state` to be cryptographically random
and never a fixed literal; `app/main.py`'s `login_linkedin` uses the fixed
literal `"random_state_string_123"`, so every login (here with client id
`abc123`) carries the very same state value. -/
theorem C3_fixed_state_literal :
    AppMainPy.state = "random_state_string_123"
    ∧ strContains (AppMainPy.login_linkedin "abc123")
        "&state=random_state_string_123" = true
    ∧ AppMainPy.login_linkedin "abc123" = AppMainPy.login_linkedin "abc123" :=
  ⟨rfl, by decide, rfl⟩

/-- C5 counterexample: `main.py` builds the authorization URL by plain
f-string interpolation, so for clientId `abc123` and redirectUri
`https://host/auth/callback` the URL does NOT contain the percent-encoded
substring the claim requires. -/
theorem C5_counterexample :
    strContains
      (MainPy.authUrl "abc123" "https://host/auth/callback" MainPy.scopes "somestate")
      "response_type=code&client_id=abc123&redirect_uri=https%3A%2F%2Fhost%2Fauth%2Fcallback"
      = false := by decide

/-- C5 (amended): the urlencode-based variant (`app/main.py`) does produce
the percent-encoded substring, while the f-string variant (`main.py`)
contains the same redirect URI unencoded. -/
theorem C5_encoding_by_variant :
    strContains
      (AppMainPy.authUrl "abc123" "https://host/auth/callback" "" "xyzstate")
      "response_type=code&client_id=abc123&redirect_uri=https%3A%2F%2Fhost%2Fauth%2Fcallback"
      = true
    ∧ strContains
      (MainPy.authUrl "abc123" "https://host/auth/callback" MainPy.scopes "xyzstate")
      "response_type=code&client_id=abc123&redirect_uri=https://host/auth/callback"
      = true := by
  exact ⟨by decide, by decide⟩

/-- C6: the spec requires tolerating a profile response without `email`;
on first login (creation path) `main.py` evaluates `profile_data["email"]`,
so a successful token exchange followed by an email-less profile crashes
with a `KeyError` and the callback returns a 500 instead of completing. -/
theorem C6_missing_email_fails :
    MainPy.auth_callback (some "authcode-6")
        ⟨200, [("access_token", "tokX")], 200, [("sub", "urn6"), ("name", "Jane Doe")]⟩
        ⟨[], 1⟩
      = (Except.error ⟨500, "An error occurred: 'email'"⟩, ⟨[], 1⟩,
         [NetCall.tokenPost "authcode-6", NetCall.profileGet "tokX"]) := rfl

/-- C7 counterexample: `main.py`'s callback declares no `error` parameter,
so a callback carrying `error=user_cancelled_login` together with a code is
processed normally: both network calls happen and the flow succeeds instead
of failing with `OAuthDeniedError`. -/
theorem C7_counterexample :
    MainPy.handle ⟨some "authcode-7", some "st7", some "user_cancelled_login", none⟩
        ⟨200, [("access_token", "tok7")], 200,
         [("sub", "urn7"), ("email", "a@b.c"), ("name", "Ann")]⟩
        ⟨[], 1⟩
      = (Except.ok "http://localhost:5173?user_id=1&name=Ann",
         ⟨[⟨1, "urn7", "a@b.c", "Ann", some "tok7"⟩], 2⟩,
         [NetCall.tokenPost "authcode-7", NetCall.profileGet "tok7"]) := rfl

/-- C7 (amended): in the `app.py` variant, a present provider `error`
parameter makes the callback fail with the OAuth-denied 400 before any
network call, whatever the other parameters say and whatever the provider
would have answered. -/
theorem C7_error_checked_first (code st ed : Option String) (e : String)
    (env : CallbackEnv) :
    AppPy.auth_callback code st (some e) ed env
      = (Except.error ⟨400, "OAuth error: " ++ e ++ ". Description: "
            ++ ed.getD "No description provided"⟩, []) := rfl

/-- C8: a callback without a `code` fails with the missing-code 400
("Authorization code not provided") and performs no network calls and no
store change: in `main.py` for every query (that handler reads only
`code`), and in `app.py` whenever no provider error is present. -/
theorem C8_missing_code (st er ed : Option String) (env : CallbackEnv) (db : Store) :
    MainPy.handle ⟨none, st, er, ed⟩ env db
      = (Except.error ⟨400, "Authorization code not provided"⟩, db, [])
    ∧ AppPy.auth_callback none st none ed env
      = (Except.error ⟨400, "Authorization code not provided"⟩, []) := ⟨rfl, rfl⟩

/-- C4 counterexample: an upsert for an existing `externalId` does NOT
overwrite `email` and `displayName`.  Starting from the stored record
`(L1, old@x, Old)` and a login carrying profile `(L1, new@x, New)` with
token `t1`, the claim would make the stored record
`⟨1, L1, new@x, New, some t1⟩`, but the code produces a different store. -/
theorem C4_counterexample :
    ¬ (MainPy.reconcile (some "t1")
          [("sub", "L1"), ("email", "new@x"), ("name", "New")]
          ⟨[⟨1, "L1", "old@x", "Old", some "t0"⟩], 2⟩
        = Except.ok (⟨1, "L1", "new@x", "New", some "t1"⟩,
            ⟨[⟨1, "L1", "new@x", "New", some "t1"⟩], 2⟩)) := by
  intro h
  have h0 : MainPy.reconcile (some "t1")
      [("sub", "L1"), ("email", "new@x"), ("name", "New")]
      ⟨[⟨1, "L1", "old@x", "Old", some "t0"⟩], 2⟩
      = Except.ok ((⟨1, "L1", "old@x", "Old", some "t1"⟩ : UserRecord),
          (⟨[⟨1, "L1", "old@x", "Old", some "t1"⟩], 2⟩ : Store)) := rfl
  rw [h0] at h
  exact absurd (Except.ok.inj h) (by decide)

/-- C4 (amended): an upsert for an existing `externalId` overwrites ONLY
`accessToken` — the local key, `externalId`, `email` and `displayName` of
the stored record are unchanged — and that updated record is the one
returned and found in the store afterwards; when no record exists, a new
record with the fresh local key `db.nextId` and all supplied attributes is
appended and `nextId` is incremented. -/
theorem C4_upsert_amended (db : Store) (pj : JObj) (tok : Option String)
    (sub : String) (hsub : dictGet pj "sub" = Except.ok sub) :
    (∀ u, db.users.find? (fun v => v.linkedin_id == sub) = some u →
      ∃ u' db', MainPy.reconcile tok pj db = Except.ok (u', db')
        ∧ u'.id = u.id ∧ u'.linkedin_id = u.linkedin_id
        ∧ u'.email = u.email ∧ u'.name = u.name ∧ u'.access_token = tok
        ∧ db'.users.find? (fun v => v.linkedin_id == sub) = some u'
        ∧ db'.nextId = db.nextId)
    ∧ (db.users.find? (fun v => v.linkedin_id == sub) = none →
      ∀ email name, dictGet pj "email" = Except.ok email →
        dictGet pj "name" = Except.ok name →
        ∃ u', MainPy.reconcile tok pj db
            = Except.ok (u', ⟨db.users ++ [u'], db.nextId + 1⟩)
          ∧ u' = ⟨db.nextId, sub, email, name, tok⟩) := by
  constructor
  · intro u hu
    refine ⟨{ u with access_token := tok },
      ⟨updateFirst (fun v => v.linkedin_id == sub)
        (fun v => { v with access_token := tok }) db.users, db.nextId⟩,
      ?_, rfl, rfl, rfl, rfl, rfl, ?_, rfl⟩
    · simp only [MainPy.reconcile, hsub, hu]
    · exact find?_updateFirst _ _ _ u (fun a ha => ha) hu
  · intro hnone email name he hn
    refine ⟨⟨db.nextId, sub, email, name, tok⟩, ?_, rfl⟩
    simp only [MainPy.reconcile, hsub, hnone, he, hn]

/-- C4 witness: instantiating the amended upsert theorem on a store holding
`(L1, old@x, Old)` and a login carrying `(new@x, New, t1)`: the record kept
its old email but received the new token. -/
theorem C4_upsert_witness :
    dictGet [("sub", "L1"), ("email", "new@x"), ("name", "New")] "sub"
        = Except.ok "L1"
    ∧ ∃ u' db', MainPy.reconcile (some "t1")
          [("sub", "L1"), ("email", "new@x"), ("name", "New")]
          ⟨[⟨1, "L1", "old@x", "Old", some "t0"⟩], 2⟩ = Except.ok (u', db')
        ∧ u'.email = "old@x" ∧ u'.access_token = some "t1" := by
  have h := (C4_upsert_amended ⟨[⟨1, "L1", "old@x", "Old", some "t0"⟩], 2⟩
      [("sub", "L1"), ("email", "new@x"), ("name", "New")] (some "t1") "L1" rfl).1
      ⟨1, "L1", "old@x", "Old", some "t0"⟩ rfl
  obtain ⟨u', db', hre, _, _, hemail, _, htok, _, _⟩ := h
  exact ⟨rfl, u', db', hre, by rw [hemail], by rw [htok]⟩

/-- C9: `create_linkedin_post` fails with 404 "User not found" when no
record has the requested local key, and with 400 "User does not have a
valid access token" when the stored token is falsy (absent or empty); in
both cases the returned call list is empty: no generation call and no
publish call is issued. -/
theorem C9_createPost_guards (uid : Nat) (prompt : String) (env : PostEnv)
    (db : Store) :
    (db.users.find? (fun u => u.id == uid) = none →
      MainPy.create_linkedin_post uid prompt env db
        = (Except.error ⟨404, "User not found"⟩, []))
    ∧ (∀ u, db.users.find? (fun v => v.id == uid) = some u →
        pyTruthy u.access_token = false →
        MainPy.create_linkedin_post uid prompt env db
          = (Except.error ⟨400, "User does not have a valid access token"⟩, [])) := by
  constructor
  · intro h
    simp only [MainPy.create_linkedin_post, h]
  · intro u hu ht
    simp only [MainPy.create_linkedin_post, hu, ht]
    simp

/-- C9 witness: local key 7 with no stored record gives the 404, and local
key 7 whose record holds an empty token gives the 400, both with no
outbound calls, as in the spec's `createPost(localKey=7, ...)` example. -/
theorem C9_guards_witness :
    (MainPy.create_linkedin_post 7 "announce our launch"
        ⟨Except.ok "text", 201, "", []⟩ ⟨[], 1⟩
      = (Except.error ⟨404, "User not found"⟩, []))
    ∧ (MainPy.create_linkedin_post 7 "announce our launch"
        ⟨Except.ok "text", 201, "", []⟩ ⟨[⟨7, "L7", "e@x", "N", some ""⟩], 8⟩
      = (Except.error ⟨400, "User does not have a valid access token"⟩, [])) :=
  ⟨(C9_createPost_guards 7 "announce our launch" ⟨Except.ok "text", 201, "", []⟩
      ⟨[], 1⟩).1 rfl,
   (C9_createPost_guards 7 "announce our launch" ⟨Except.ok "text", 201, "", []⟩
      ⟨[⟨7, "L7", "e@x", "N", some ""⟩], 8⟩).2 ⟨7, "L7", "e@x", "N", some ""⟩ rfl rfl⟩

/-- C10: every request body handed to the UGC-post collaborator by
`create_linkedin_post` has `lifecycleState = "PUBLISHED"` and
member-network visibility `"PUBLIC"`, for every user, prompt, store and
collaborator behaviour. -/
theorem C10_published_public (uid : Nat) (prompt : String) (env : PostEnv)
    (db : Store) (tok : String) (b : UgcBody)
    (hmem : NetCall.ugcPost tok b ∈ (MainPy.create_linkedin_post uid prompt env db).2) :
    b.lifecycleState = "PUBLISHED" ∧ b.memberNetworkVisibility = "PUBLIC" := by
  unfold MainPy.create_linkedin_post at hmem
  split at hmem
  · simp at hmem
  · split at hmem
    · split at hmem
      · simp at hmem
      · split at hmem <;>
        · simp only [List.mem_append, List.mem_singleton, List.mem_cons,
            List.not_mem_nil, or_false] at hmem
          rcases hmem with hmem | hmem
          · exact absurd hmem (by simp)
          · obtain ⟨-, rfl⟩ := NetCall.ugcPost.inj hmem
            exact ⟨rfl, rfl⟩
    · simp at hmem

/-- C10 witness: a concrete successful run whose trace contains the UGC
call; its body fields are "PUBLISHED" and "PUBLIC". -/
theorem C10_published_witness :
    (⟨"urn:li:person:L1", "PUBLISHED", "hello", "NONE", "PUBLIC"⟩
        : UgcBody).lifecycleState = "PUBLISHED"
    ∧ (⟨"urn:li:person:L1", "PUBLISHED", "hello", "NONE", "PUBLIC"⟩
        : UgcBody).memberNetworkVisibility = "PUBLIC" :=
  C10_published_public 1 "p" ⟨Except.ok "hello", 201, "", [("id", "x")]⟩
    ⟨[⟨1, "L1", "e@x", "N", some "t1"⟩], 2⟩ "t1"
    ⟨"urn:li:person:L1", "PUBLISHED", "hello", "NONE", "PUBLIC"⟩
    (by decide)
